import Mathlib

/-!
Verification development for the load-balancer repository.

The repository source available here is `main.py`, the FastAPI request layer.
Its plan-generation handler `generate_plan` is embedded below as a pure
function over an explicit database state, parameterised by the physics-engine
callbacks it invokes (`optimize_placement`, `analyze_load`), and it records a
trace of the database statements and engine calls it performs.

The physics engine itself (`physics_engine.py`) is not part of the available
source, so the core optimizer and stability analyzer are modelled from the
specification (sections 3 to 7 of the design document): geometry primitives,
the greedy slab packing algorithm, the typed optimizer errors, and the
center-of-gravity and stability-score computation. Rational numbers stand in
for the floating-point arithmetic of the original.
-/

namespace LoadBalancer

/-- Vehicle record: row of the vehicles table and input to the core.
Bay coordinate convention from the spec: x along width, y along length,
z height from the floor. -/
structure Vehicle where
  vehicle_id : Nat
  vehicle_type : String
  max_load : ℚ
  length : ℚ
  width : ℚ
  height : ℚ
deriving DecidableEq

/-- Cargo record: row of the cargo table and input to the core. -/
structure CargoItem where
  cargo_id : Nat
  name : String
  weight : ℚ
  length : ℚ
  width : ℚ
  height : ℚ
deriving DecidableEq

/-- Modelled from the spec: axis-aligned box, minimum corner plus extents
(geometry primitives of section 4.1; the geometry source is not in src). -/
structure Box where
  x : ℚ
  y : ℚ
  z : ℚ
  dx : ℚ
  dy : ℚ
  dz : ℚ
deriving DecidableEq

/-- Modelled from the spec: `overlaps(boxA, boxB)` is true iff the interiors
of the boxes intersect on all three axes; boxes sharing only a face or an
edge do not overlap. -/
def overlaps (a b : Box) : Bool :=
  (decide (a.x < b.x + b.dx) && decide (b.x < a.x + a.dx)) &&
  (decide (a.y < b.y + b.dy) && decide (b.y < a.y + a.dy)) &&
  (decide (a.z < b.z + b.dz) && decide (b.z < a.z + a.dz))

/-- Modelled from the spec: `contains(bay, box)`, the box lies fully within
the bay volume [0,width] x [0,length] x [0,height] (x along width, y along
length, z along height). -/
def containsBay (v : Vehicle) (b : Box) : Bool :=
  decide (0 ≤ b.x) && decide (b.x + b.dx ≤ v.width) &&
  decide (0 ≤ b.y) && decide (b.y + b.dy ≤ v.length) &&
  decide (0 ≤ b.z) && decide (b.z + b.dz ≤ v.height)

/-- Modelled from the spec: oriented footprint of an item, `box_for`. The
x extent follows the bay width, the y extent the bay length; a rotation about
the vertical axis swaps length and width. Returns (dx, dy, dz). -/
def orientedDims (i : CargoItem) (rotated : Bool) : ℚ × ℚ × ℚ :=
  if rotated then (i.length, i.width, i.height) else (i.width, i.length, i.height)

/-- Modelled from the spec: a placement of one cargo item, recording the item
id, the chosen orientation and the placed axis-aligned box (minimum corner
together with the oriented extents). -/
structure Placement where
  cargo_id : Nat
  rotated : Bool
  box : Box
deriving DecidableEq

/-- Modelled from the spec: the four typed optimizer errors of section 7. -/
inductive OptimizerError where
  | capacityExceeded (total_weight max_load : ℚ)
  | invalidCargo (item_id : Nat)
  | placementInfeasible (placed_ids unplaced_ids : List Nat)
  | tooManyItems (count limit : Nat)
deriving DecidableEq

/-- Sum of the weights of a cargo list. -/
def totalWeight (items : List CargoItem) : ℚ :=
  items.foldr (fun i acc => i.weight + acc) 0

/-- Volume of a cargo item. -/
def volume (i : CargoItem) : ℚ :=
  i.length * i.width * i.height

/-- Modelled from the spec: whether an item fits the bay dimensions in the
given orientation. -/
def fitsBay (v : Vehicle) (i : CargoItem) (rotated : Bool) : Bool :=
  let d := orientedDims i rotated
  decide (d.1 ≤ v.width) && decide (d.2.1 ≤ v.length) && decide (d.2.2 ≤ v.height)

/-- Modelled from the spec: an item must fit the bay in at least one of the
two orientations, else it is invalid cargo. -/
def canFit (v : Vehicle) (i : CargoItem) : Bool :=
  fitsBay v i false || fitsBay v i true

/-- Comparison realising the packing order of section 4.2 step 1: descending
weight, ties broken by descending volume, then ascending item id. -/
def itemLE (a b : CargoItem) : Bool :=
  if a.weight = b.weight then
    if volume a = volume b then decide (a.cargo_id ≤ b.cargo_id)
    else decide (volume b < volume a)
  else decide (b.weight < a.weight)

/-- Comparison realising the slab scan order of section 4.2 step 3: lowest z
first, then lowest y, then lowest x. -/
def slabLE (a b : Box) : Bool :=
  if a.z = b.z then
    if a.y = b.y then decide (a.x ≤ b.x)
    else decide (a.y < b.y)
  else decide (a.z < b.z)

/-- Insertion of an element into a list sorted by a boolean comparison. -/
def insertSorted (le : α → α → Bool) (a : α) : List α → List α
  | [] => [a]
  | b :: l => if le a b then a :: b :: l else b :: insertSorted le a l

/-- Deterministic insertion sort by a boolean comparison. -/
def sortBy (le : α → α → Bool) : List α → List α
  | [] => []
  | a :: l => insertSorted le a (sortBy le l)

/-- Modelled from the spec: splitting the occupied slab into up to three
residual slabs (section 4.2 step 4): the region above the placed box up to
the slab height, the region beside it along x, and the region beyond it
along y, discarding degenerate zero-volume slabs. The box sits at the
minimum corner of the slab `s`. -/
def splitSlab (s : Box) (b : Box) : List Box :=
  let residuals : List Box :=
    [⟨s.x, s.y, s.z + b.dz, b.dx, b.dy, s.dz - b.dz⟩,
     ⟨s.x + b.dx, s.y, s.z, s.dx - b.dx, s.dy, s.dz⟩,
     ⟨s.x, s.y + b.dy, s.z, b.dx, s.dy - b.dy, s.dz⟩]
  residuals.filter (fun r => decide (0 < r.dx) && decide (0 < r.dy) && decide (0 < r.dz))

/-- Modelled from the spec: acceptance test of section 4.2 step 3 for a
candidate box placed at the minimum corner of slab `s`: the box fits
entirely inside the slab, stays within the bay, and does not overlap any
already-placed box. -/
def candidateOK (v : Vehicle) (placed : List Placement) (s : Box) (b : Box) : Bool :=
  (decide (b.dx ≤ s.dx) && decide (b.dy ≤ s.dy) && decide (b.dz ≤ s.dz)) &&
  containsBay v b &&
  placed.all (fun q => !overlaps b q.box)

/-- Modelled from the spec: scan of the free slabs (already in scan order)
for one orientation, returning the accepted placement and the updated slab
list (the chosen slab replaced by its residual slabs). -/
def scanSlabs (item : CargoItem) (rotated : Bool) (v : Vehicle)
    (placed : List Placement) : List Box → Option (Placement × List Box)
  | [] => none
  | s :: rest =>
    let d := orientedDims item rotated
    let b : Box := ⟨s.x, s.y, s.z, d.1, d.2.1, d.2.2⟩
    if candidateOK v placed s b then
      some (⟨item.cargo_id, rotated, b⟩, rest ++ splitSlab s b)
    else
      match scanSlabs item rotated v placed rest with
      | some (pl, rest') => some (pl, s :: rest')
      | none => none

/-- Modelled from the spec: candidate search for one item, trying the
unrotated orientation over all slabs in scan order, then the rotated one. -/
def findSpot (item : CargoItem) (v : Vehicle) (slabs : List Box)
    (placed : List Placement) : Option (Placement × List Box) :=
  let sorted := sortBy slabLE slabs
  match scanSlabs item false v placed sorted with
  | some r => some r
  | none => scanSlabs item true v placed sorted

/-- Modelled from the spec: the single greedy packing pass of section 4.2
steps 3 to 6; on an unplaceable item it fails with `PlacementInfeasible`
carrying the ids placed so far and the ids still unplaced. -/
def packLoop (v : Vehicle) : List CargoItem → List Box → List Placement →
    Except OptimizerError (List Placement)
  | [], _, placed => .ok placed
  | item :: rest, slabs, placed =>
    match findSpot item v slabs placed with
    | none =>
        .error (.placementInfeasible (placed.map (fun p => p.cargo_id))
          ((item :: rest).map (fun i => i.cargo_id)))
    | some (pl, slabs') => packLoop v rest slabs' (placed ++ [pl])

/-- Modelled from the spec: the bounded-latency guard of section 5 on the
item count. -/
def MAX_ITEMS : Nat := 500

/-- Modelled from the spec: the initial free slab, the full bay floor at
z = 0 with the full bay height. -/
def initialSlab (v : Vehicle) : Box :=
  ⟨0, 0, 0, v.width, v.length, v.height⟩

/-- Modelled from the spec: the placement optimizer contract of section 4.2,
`optimize(items, vehicle)`. The capacity precondition is checked before any
packing work, then the item-count guard, then the per-item fit check; only
then does the greedy pass run on the items sorted by the packing order. -/
def optimize (items : List CargoItem) (v : Vehicle) :
    Except OptimizerError (List Placement) :=
  if totalWeight items > v.max_load then
    .error (.capacityExceeded (totalWeight items) v.max_load)
  else if items.length > MAX_ITEMS then
    .error (.tooManyItems items.length MAX_ITEMS)
  else
    match items.find? (fun i => !canFit v i) with
    | some i => .error (.invalidCargo i.cargo_id)
    | none => packLoop v (sortBy itemLE items) [initialSlab v] []

/-- Modelled from the spec: the safety threshold configuration constant of
section 4.3, default 70. -/
def SAFETY_THRESHOLD : ℤ := 70

/-- Modelled from the spec: the analysis record of section 3, as read by the
request layer: total weight, center of gravity per axis, stability score,
safety verdict and warnings. -/
structure LoadPlanAnalysis where
  total_weight : ℚ
  cog_x : ℚ
  cog_y : ℚ
  cog_z : ℚ
  stability_score : ℤ
  is_safe : Bool
  warnings : List String
deriving DecidableEq

/-- Lookup of a cargo item by id. -/
def findItem (items : List CargoItem) (id : Nat) : Option CargoItem :=
  items.find? (fun i => i.cargo_id == id)

/-- Geometric center of a box. -/
def boxCenter (b : Box) : ℚ × ℚ × ℚ :=
  (b.x + b.dx / 2, b.y + b.dy / 2, b.z + b.dz / 2)

/-- Modelled from the spec: the stability analyzer of section 4.3,
`analyze(placements, items, vehicle)`. A placement referencing an unknown
item is the fatal cross-reference error, modelled as `none`. The center of
gravity is the weight-weighted average of the box centers; the penalty
combines the lateral, longitudinal and height ratios with weights 0.35,
0.35 and 0.30; the score is 100 times the clamped complement, rounded and
clamped to [0, 100]. -/
def analyze (placements : List Placement) (items : List CargoItem) (v : Vehicle) :
    Option LoadPlanAnalysis :=
  if placements.all (fun p => (findItem items p.cargo_id).isSome) then
    let entries := placements.filterMap (fun p =>
      (findItem items p.cargo_id).map (fun i => (i.weight, boxCenter p.box)))
    let w := entries.foldr (fun e acc => e.1 + acc) 0
    let cx := entries.foldr (fun e acc => e.1 * e.2.1 + acc) 0 / w
    let cy := entries.foldr (fun e acc => e.1 * e.2.2.1 + acc) 0 / w
    let cz := entries.foldr (fun e acc => e.1 * e.2.2.2 + acc) 0 / w
    let latRatio := |cx - v.width / 2| / (v.width / 2)
    let lonRatio := |cy - v.length / 2| / (v.length / 2)
    let hRatio := cz / v.height
    let penalty := (7 / 20 : ℚ) * latRatio + (7 / 20 : ℚ) * lonRatio + (3 / 10 : ℚ) * hRatio
    let score := min 100 (max 0 (round ((100 : ℚ) * max 0 (1 - penalty))))
    let warnings :=
      (if decide ((1 : ℚ) / 2 < latRatio) then ["lateral imbalance"] else []) ++
      (if decide ((3 : ℚ) / 5 < hRatio) then ["center of gravity too high"] else []) ++
      (if decide (50 ≤ score) && decide (score < SAFETY_THRESHOLD) then
        ["marginal stability"] else [])
    some { total_weight := w, cog_x := cx, cog_y := cy, cog_z := cz,
           stability_score := score,
           is_safe := decide (w ≤ v.max_load) && decide (SAFETY_THRESHOLD ≤ score),
           warnings := warnings }
  else none

/-- Modelled from the spec: the full core pipeline of one request, one
optimizer call followed by one analyzer call on its placements. -/
def core (items : List CargoItem) (v : Vehicle) :
    Except OptimizerError (List Placement × Option LoadPlanAnalysis) :=
  (optimize items v).map (fun ps => (ps, analyze ps items v))

/-! The request layer of main.py -/

/-- Row of the users table (main.py reads only the authenticated id). -/
structure User where
  user_id : Nat
  name : String
  email : String
  role : String
deriving DecidableEq

/-- Row of the load_plans table, with the columns the INSERT of
generate_plan writes (main.py lines 172 to 188). -/
structure LoadPlanRow where
  user_id : Nat
  vehicle_id : Nat
  stability_score : ℤ
  center_of_gravity_x : ℚ
  center_of_gravity_y : ℚ
  center_of_gravity_z : ℚ
  status : String
deriving DecidableEq

/-- Database state: the four tables main.py touches. -/
structure Db where
  users : List User
  vehicles : List Vehicle
  cargo : List CargoItem
  load_plans : List LoadPlanRow
deriving DecidableEq

/-- Request body of POST /load-plan/generate. -/
structure LoadPlanCreate where
  vehicle_id : Nat
  cargo_items : List Nat
deriving DecidableEq

/-- An HTTPException as raised by the handlers of main.py.
generate_plan raises none; the type records that its embedding has an error
channel it never uses. -/
structure HttpError where
  status_code : Nat
  detail : String
deriving DecidableEq

/-- Trace events of one generate_plan request: the database statements and
the physics-engine calls, in program order. `P` is the type of whatever
value optimize_placement returns; main.py never inspects it. -/
inductive Event (P : Type) where
  | selectVehicle (vehicle_id : Nat) (result : Option Vehicle)
  | selectCargo (requested : List Nat) (result : List CargoItem)
  | optimizeCall (items : List CargoItem) (vehicle : Option Vehicle) (result : P)
  | analyzeCall (placements : P) (items : List CargoItem) (vehicle : Option Vehicle)
      (result : LoadPlanAnalysis)
  | insertLoadPlan (row : LoadPlanRow)
deriving DecidableEq

/-- SELECT * FROM vehicles WHERE vehicle_id=%s, fetchone: the first matching
row, or none. -/
def fetchedVehicle (db : Db) (vid : Nat) : Option Vehicle :=
  db.vehicles.find? (fun v => v.vehicle_id == vid)

/-- SELECT * FROM cargo WHERE cargo_id = ANY(%s), fetchall: the rows whose
id is among the requested ids, in table order. -/
def fetchedCargo (db : Db) (ids : List Nat) : List CargoItem :=
  db.cargo.filter (fun c => ids.contains c.cargo_id)

/-- Embedding of the generate_plan handler of main.py (lines 160 to 189),
parameterised by the two physics-engine callbacks exactly as main.py imports
them. It fetches the vehicle (fetchone, possibly None) and the cargo rows,
feeds them to optimize_placement, feeds that result to analyze_load, and
inserts one load_plans row whose status is approved iff the analysis says
is_safe, returning the inserted row. The handler contains no raise
statement, so the embedding never returns an error. -/
def generate_plan {P : Type}
    (optimize_placement : List CargoItem → Option Vehicle → P)
    (analyze_load : P → List CargoItem → Option Vehicle → LoadPlanAnalysis)
    (current_user_id : Nat) (plan : LoadPlanCreate) (db : Db) :
    Except HttpError (Db × LoadPlanRow × List (Event P)) :=
  let vehicle := fetchedVehicle db plan.vehicle_id
  let cargo_items := fetchedCargo db plan.cargo_items
  let placements := optimize_placement cargo_items vehicle
  let analysis := analyze_load placements cargo_items vehicle
  let row : LoadPlanRow :=
    { user_id := current_user_id
      vehicle_id := plan.vehicle_id
      stability_score := analysis.stability_score
      center_of_gravity_x := analysis.cog_x
      center_of_gravity_y := analysis.cog_y
      center_of_gravity_z := analysis.cog_z
      status := if analysis.is_safe then "approved" else "draft" }
  .ok ({ db with load_plans := db.load_plans ++ [row] }, row,
    [.selectVehicle plan.vehicle_id vehicle,
     .selectCargo plan.cargo_items cargo_items,
     .optimizeCall cargo_items vehicle placements,
     .analyzeCall placements cargo_items vehicle analysis,
     .insertLoadPlan row])

/-- The analysis value computed inside a generate_plan request: analyze_load
applied to the optimizer output over the fetched rows. -/
def planAnalysis {P : Type}
    (optimize_placement : List CargoItem → Option Vehicle → P)
    (analyze_load : P → List CargoItem → Option Vehicle → LoadPlanAnalysis)
    (plan : LoadPlanCreate) (db : Db) : LoadPlanAnalysis :=
  analyze_load
    (optimize_placement (fetchedCargo db plan.cargo_items) (fetchedVehicle db plan.vehicle_id))
    (fetchedCargo db plan.cargo_items) (fetchedVehicle db plan.vehicle_id)

/-- Whether a trace event is a physics-engine call. -/
def isEngineCall {P : Type} : Event P → Bool
  | .optimizeCall _ _ _ => true
  | .analyzeCall _ _ _ _ => true
  | _ => false

/-- Whether a trace event writes the database. -/
def isWrite {P : Type} : Event P → Bool
  | .insertLoadPlan _ => true
  | _ => false

/-! Concrete sample data for witnesses -/

/-- Sample vehicle: max load 1000, bay 2.4 wide, 6 long, 2 high. -/
def exVehicle : Vehicle := ⟨1, "truck", 1000, 6, 24 / 10, 2⟩

/-- Sample heavy cargo row, id 1, weight 600. -/
def exItemB : CargoItem := ⟨1, "crate-b", 600, 1, 1, 1⟩

/-- Sample heavy cargo row, id 2, weight 600. -/
def exItemC : CargoItem := ⟨2, "crate-c", 600, 1, 1, 1⟩

/-- Sample light cargo row, id 3, weight 200. -/
def exItemA : CargoItem := ⟨3, "crate-a", 200, 1, 1, 1⟩

/-- Sample database holding the sample vehicle and the two heavy rows. -/
def exDb : Db := ⟨[], [exVehicle], [exItemB, exItemC], []⟩

/-- Sample plan request for the sample vehicle and both heavy rows. -/
def exReq : LoadPlanCreate := ⟨1, [1, 2]⟩

/-- Sample database containing cargo but no vehicles. -/
def exDbNoVehicle : Db := ⟨[], [], [exItemB], []⟩

/-- Trivial optimizer stand-in for instantiating the engine-generic
handler theorems. -/
def unitOpt : List CargoItem → Option Vehicle → Unit := fun _ _ => ()

/-- Constant analyzer stand-in for instantiating the engine-generic
handler theorems. -/
def constAna : Unit → List CargoItem → Option Vehicle → LoadPlanAnalysis :=
  fun _ _ _ => ⟨0, 0, 0, 0, 0, false, []⟩

/-! Theorems -/

/-- C1: for every analysis returned by analyze_load during a plan-generation
request, the handler derives and persists status approved if is_safe holds
and draft otherwise, and no other status value is ever produced. -/
theorem c1_status_approved_iff_safe {P : Type}
    (optimize_placement : List CargoItem → Option Vehicle → P)
    (analyze_load : P → List CargoItem → Option Vehicle → LoadPlanAnalysis)
    (uid : Nat) (plan : LoadPlanCreate) (db : Db) :
    ∃ db' row trace,
      generate_plan optimize_placement analyze_load uid plan db = .ok (db', row, trace) ∧
      row.status =
        (if (planAnalysis optimize_placement analyze_load plan db).is_safe
         then "approved" else "draft") ∧
      (row.status = "approved" ∨ row.status = "draft") ∧
      db'.load_plans = db.load_plans ++ [row] := by
  refine ⟨_, _, _, rfl, rfl, ?_, rfl⟩
  cases hb : (planAnalysis optimize_placement analyze_load plan db).is_safe
  · right
    show (if (planAnalysis optimize_placement analyze_load plan db).is_safe
      then "approved" else "draft") = "draft"
    rw [hb]
    rfl
  · left
    show (if (planAnalysis optimize_placement analyze_load plan db).is_safe
      then "approved" else "draft") = "approved"
    rw [hb]
    rfl

/-- C3: the persisted load-plan row carries exactly the stability score of
the analysis, its center-of-gravity x, y and z coordinates, and the derived
status, and that row is stored in the load_plans table. -/
theorem c3_persisted_fields {P : Type}
    (optimize_placement : List CargoItem → Option Vehicle → P)
    (analyze_load : P → List CargoItem → Option Vehicle → LoadPlanAnalysis)
    (uid : Nat) (plan : LoadPlanCreate) (db : Db) :
    ∃ db' row trace,
      generate_plan optimize_placement analyze_load uid plan db = .ok (db', row, trace) ∧
      row.stability_score =
        (planAnalysis optimize_placement analyze_load plan db).stability_score ∧
      row.center_of_gravity_x =
        (planAnalysis optimize_placement analyze_load plan db).cog_x ∧
      row.center_of_gravity_y =
        (planAnalysis optimize_placement analyze_load plan db).cog_y ∧
      row.center_of_gravity_z =
        (planAnalysis optimize_placement analyze_load plan db).cog_z ∧
      row.status =
        (if (planAnalysis optimize_placement analyze_load plan db).is_safe
         then "approved" else "draft") ∧
      row ∈ db'.load_plans := by
  refine ⟨_, _, _, rfl, rfl, rfl, rfl, rfl, rfl, ?_⟩
  simp [generate_plan]

/-- C4: one plan-generation request performs exactly one optimizer call
followed by exactly one analyzer call, and the analyzer consumes precisely
the value the optimizer call of the same request produced. -/
theorem c4_engine_called_once_in_order {P : Type}
    (optimize_placement : List CargoItem → Option Vehicle → P)
    (analyze_load : P → List CargoItem → Option Vehicle → LoadPlanAnalysis)
    (uid : Nat) (plan : LoadPlanCreate) (db : Db) :
    ∃ db' row trace,
      generate_plan optimize_placement analyze_load uid plan db = .ok (db', row, trace) ∧
      trace.filter isEngineCall =
        [Event.optimizeCall (fetchedCargo db plan.cargo_items)
           (fetchedVehicle db plan.vehicle_id)
           (optimize_placement (fetchedCargo db plan.cargo_items)
             (fetchedVehicle db plan.vehicle_id)),
         Event.analyzeCall
           (optimize_placement (fetchedCargo db plan.cargo_items)
             (fetchedVehicle db plan.vehicle_id))
           (fetchedCargo db plan.cargo_items)
           (fetchedVehicle db plan.vehicle_id)
           (planAnalysis optimize_placement analyze_load plan db)] :=
  ⟨_, _, _, rfl, rfl⟩

/-- C10: every completed plan-generation request appends exactly one row to
the load_plans table, attributed to the authenticated user, regardless of
the safety verdict (an unsafe analysis yields a stored draft row, not a
rejection), and it writes no other table. -/
theorem c10_single_insert_attributed {P : Type}
    (optimize_placement : List CargoItem → Option Vehicle → P)
    (analyze_load : P → List CargoItem → Option Vehicle → LoadPlanAnalysis)
    (uid : Nat) (plan : LoadPlanCreate) (db : Db) :
    ∃ db' row trace,
      generate_plan optimize_placement analyze_load uid plan db = .ok (db', row, trace) ∧
      db'.load_plans = db.load_plans ++ [row] ∧
      row.user_id = uid ∧
      db'.users = db.users ∧
      db'.vehicles = db.vehicles ∧
      db'.cargo = db.cargo ∧
      trace.filter isWrite = [Event.insertLoadPlan row] ∧
      row.status =
        (if (planAnalysis optimize_placement analyze_load plan db).is_safe
         then "approved" else "draft") :=
  ⟨_, _, _, rfl, rfl, rfl, rfl, rfl, rfl, rfl, rfl⟩

/-- C5: whenever the summed item weight exceeds the vehicle limit, optimize
fails with CapacityExceeded carrying the total weight and the limit; the
check precedes any packing work, so this holds for every item list. -/
theorem c5_capacity_exceeded_before_packing (items : List CargoItem) (v : Vehicle)
    (h : totalWeight items > v.max_load) :
    optimize items v = .error (.capacityExceeded (totalWeight items) v.max_load) := by
  unfold optimize
  rw [if_pos h]

/-- Witness for C5 at the overweight sample: two 600-weight rows against a
1000 limit. -/
theorem c5_capacity_exceeded_before_packing_witness :
    totalWeight [exItemB, exItemC] > exVehicle.max_load ∧
    optimize [exItemB, exItemC] exVehicle =
      .error (.capacityExceeded (totalWeight [exItemB, exItemC]) exVehicle.max_load) :=
  ⟨by with_unfolding_all decide,
   c5_capacity_exceeded_before_packing [exItemB, exItemC] exVehicle
     (by with_unfolding_all decide)⟩

/-- C7: determinism of the core: two invocations on equal inputs return
equal placements and an equal analysis. -/
theorem c7_core_deterministic (items₁ : List CargoItem) (v₁ : Vehicle)
    (items₂ : List CargoItem) (v₂ : Vehicle)
    (hi : items₁ = items₂) (hv : v₁ = v₂) :
    optimize items₁ v₁ = optimize items₂ v₂ ∧ core items₁ v₁ = core items₂ v₂ := by
  subst hi
  subst hv
  exact ⟨rfl, rfl⟩

/-- Witness for C7 at the sample one-item input. -/
theorem c7_core_deterministic_witness :
    [exItemA] = [exItemA] ∧ exVehicle = exVehicle ∧
    (optimize [exItemA] exVehicle = optimize [exItemA] exVehicle ∧
     core [exItemA] exVehicle = core [exItemA] exVehicle) :=
  ⟨rfl, rfl, c7_core_deterministic [exItemA] exVehicle [exItemA] exVehicle rfl rfl⟩

/-- C8: when the requested vehicle id matches no stored vehicle, the handler
raises no not-found error of its own: the request still completes and the
absent (None) vehicle fetched from the database is passed directly to
optimize_placement. -/
theorem c8_none_vehicle_passed_to_optimizer {P : Type}
    (optimize_placement : List CargoItem → Option Vehicle → P)
    (analyze_load : P → List CargoItem → Option Vehicle → LoadPlanAnalysis)
    (uid : Nat) (plan : LoadPlanCreate) (db : Db)
    (h : fetchedVehicle db plan.vehicle_id = none) :
    ∃ db' row trace,
      generate_plan optimize_placement analyze_load uid plan db = .ok (db', row, trace) ∧
      Event.optimizeCall (fetchedCargo db plan.cargo_items) none
        (optimize_placement (fetchedCargo db plan.cargo_items) none) ∈ trace := by
  refine ⟨_, _, _, rfl, ?_⟩
  rw [h]
  simp

/-- Witness for C8: a database with no vehicles at all. -/
theorem c8_none_vehicle_passed_to_optimizer_witness :
    fetchedVehicle exDbNoVehicle 1 = none ∧
    ∃ db' row trace,
      generate_plan unitOpt constAna 7 ⟨1, [1]⟩ exDbNoVehicle = .ok (db', row, trace) ∧
      Event.optimizeCall (fetchedCargo exDbNoVehicle [1]) none
        (unitOpt (fetchedCargo exDbNoVehicle [1]) none) ∈ trace :=
  ⟨rfl, c8_none_vehicle_passed_to_optimizer unitOpt constAna 7 ⟨1, [1]⟩ exDbNoVehicle rfl⟩

/-- Requested ids that match no cargo row do not change the fetched rows. -/
theorem fetchedCargo_append_missing (db : Db) (ids extra : List Nat)
    (h : ∀ c ∈ db.cargo, c.cargo_id ∉ extra) :
    fetchedCargo db (ids ++ extra) = fetchedCargo db ids := by
  unfold fetchedCargo
  apply List.filter_congr
  intro c hc
  have hx : c.cargo_id ∉ extra := h c hc
  simp [List.mem_append, hx]

/-- C9: requested cargo ids matching no stored row are silently dropped:
appending such ids to a request leaves the stored state and the returned
row unchanged (the plan is computed over the rows actually found), and the
request reports no error. -/
theorem c9_missing_cargo_ids_dropped {P : Type}
    (optimize_placement : List CargoItem → Option Vehicle → P)
    (analyze_load : P → List CargoItem → Option Vehicle → LoadPlanAnalysis)
    (uid vid : Nat) (ids extra : List Nat) (db : Db)
    (h : ∀ c ∈ db.cargo, c.cargo_id ∉ extra) :
    (generate_plan optimize_placement analyze_load uid ⟨vid, ids ++ extra⟩ db).map
        (fun r => (r.1, r.2.1)) =
      (generate_plan optimize_placement analyze_load uid ⟨vid, ids⟩ db).map
        (fun r => (r.1, r.2.1)) ∧
    (∀ e, generate_plan optimize_placement analyze_load uid ⟨vid, ids ++ extra⟩ db ≠
      .error e) ∧
    fetchedCargo db (ids ++ extra) = fetchedCargo db ids := by
  have hc : fetchedCargo db (ids ++ extra) = fetchedCargo db ids :=
    fetchedCargo_append_missing db ids extra h
  refine ⟨?_, ?_, hc⟩
  · simp only [generate_plan, hc, Except.map]
  · intro e
    simp [generate_plan]

/-- Witness for C9: the id 99 matches no cargo row of the sample database. -/
theorem c9_missing_cargo_ids_dropped_witness :
    (∀ c ∈ exDb.cargo, c.cargo_id ∉ [99]) ∧
    ((generate_plan unitOpt constAna 7 ⟨1, [1] ++ [99]⟩ exDb).map
        (fun r => (r.1, r.2.1)) =
      (generate_plan unitOpt constAna 7 ⟨1, [1]⟩ exDb).map (fun r => (r.1, r.2.1)) ∧
    (∀ e, generate_plan unitOpt constAna 7 ⟨1, [1] ++ [99]⟩ exDb ≠ .error e) ∧
    fetchedCargo exDb ([1] ++ [99]) = fetchedCargo exDb [1]) :=
  ⟨by decide, c9_missing_cargo_ids_dropped unitOpt constAna 7 1 [1] [99] exDb (by decide)⟩

/-- C2 counterevidence: for the overweight sample request the spec-modelled
optimizer returns the typed CapacityExceeded error, yet the handler of
main.py, which contains no check between its optimize_placement and
analyze_load calls, feeds that error value onward into analyze_load and
still inserts a load_plans row. The statement holds for every analyzer
callback and every value `z` standing for the (never reached here)
behaviour of the optimizer on a missing vehicle. -/
theorem c2_error_fed_to_analyze_and_persisted
    (z : Except OptimizerError (List Placement))
    (analyze_load : Except OptimizerError (List Placement) → List CargoItem →
      Option Vehicle → LoadPlanAnalysis) :
    optimize (fetchedCargo exDb [1, 2]) exVehicle =
      .error (.capacityExceeded 1200 1000) ∧
    ∃ db' row trace,
      generate_plan (fun items v? => v?.elim z (fun v => optimize items v))
        analyze_load 7 exReq exDb = .ok (db', row, trace) ∧
      Event.analyzeCall (Except.error (.capacityExceeded 1200 1000))
        (fetchedCargo exDb [1, 2]) (some exVehicle)
        (planAnalysis (fun items v? => v?.elim z (fun v => optimize items v))
          analyze_load exReq exDb) ∈ trace ∧
      db'.load_plans = [row] := by
  have hopt : optimize (fetchedCargo exDb [1, 2]) exVehicle =
      .error (.capacityExceeded 1200 1000) := by
    with_unfolding_all rfl
  refine ⟨hopt, _, _, _, rfl, ?_, rfl⟩
  with_unfolding_all
    exact List.mem_cons_of_mem _ (List.mem_cons_of_mem _
      (List.mem_cons_of_mem _ (List.mem_cons_self _ _)))

/-- Overlap of boxes is symmetric. -/
theorem overlaps_comm (a b : Box) : overlaps a b = overlaps b a := by
  simp only [overlaps]
  rw [Bool.eq_iff_iff]
  simp only [Bool.and_eq_true, decide_eq_true_eq]
  tauto

/-- A placement accepted by the slab scan does not overlap any box placed
before it. -/
theorem scanSlabs_no_overlap (item : CargoItem) (rotated : Bool) (v : Vehicle)
    (placed : List Placement) :
    ∀ (slabs : List Box) (pl : Placement) (rest : List Box),
      scanSlabs item rotated v placed slabs = some (pl, rest) →
      ∀ q ∈ placed, overlaps pl.box q.box = false := by
  intro slabs
  induction slabs with
  | nil =>
    intro pl rest h
    exact Option.noConfusion h
  | cons s ss ih =>
    intro pl rest h q hq
    rw [scanSlabs] at h
    by_cases hok : candidateOK v placed s
        ⟨s.x, s.y, s.z, (orientedDims item rotated).1,
          (orientedDims item rotated).2.1, (orientedDims item rotated).2.2⟩
    · rw [if_pos hok] at h
      injection h with h1
      injection h1 with hpl hrest
      subst hpl
      have hall : placed.all (fun q =>
          !overlaps ⟨s.x, s.y, s.z, (orientedDims item rotated).1,
            (orientedDims item rotated).2.1, (orientedDims item rotated).2.2⟩ q.box) = true := by
        simp only [candidateOK, Bool.and_eq_true] at hok
        exact hok.2
      have hq' := List.all_eq_true.mp hall q hq
      simpa using hq'
    · rw [if_neg hok] at h
      cases hrec : scanSlabs item rotated v placed ss with
      | none =>
        rw [hrec] at h
        exact Option.noConfusion h
      | some r =>
        obtain ⟨pl', rest'⟩ := r
        rw [hrec] at h
        injection h with h1
        injection h1 with hpl hrest
        subst hpl
        exact ih pl' rest' hrec q hq

/-- A placement found for an item does not overlap any box placed before
it. -/
theorem findSpot_no_overlap (item : CargoItem) (v : Vehicle) (slabs : List Box)
    (placed : List Placement) (pl : Placement) (rest : List Box)
    (h : findSpot item v slabs placed = some (pl, rest)) :
    ∀ q ∈ placed, overlaps pl.box q.box = false := by
  rw [findSpot] at h
  cases h0 : scanSlabs item false v placed (sortBy slabLE slabs) with
  | some r =>
    rw [h0] at h
    cases Option.some.inj h
    exact scanSlabs_no_overlap item false v placed _ pl rest h0
  | none =>
    rw [h0] at h
    exact scanSlabs_no_overlap item true v placed _ pl rest h

/-- The greedy pass preserves pairwise non-overlap of the accumulated
placements. -/
theorem packLoop_pairwise (v : Vehicle) :
    ∀ (rest : List CargoItem) (slabs : List Box) (placed ps : List Placement),
      List.Pairwise (fun p q => overlaps p.box q.box = false) placed →
      packLoop v rest slabs placed = .ok ps →
      List.Pairwise (fun p q => overlaps p.box q.box = false) ps := by
  intro rest
  induction rest with
  | nil =>
    intro slabs placed ps hp h
    rw [packLoop] at h
    cases Except.ok.inj h
    exact hp
  | cons item items ih =>
    intro slabs placed ps hp h
    rw [packLoop] at h
    cases hf : findSpot item v slabs placed with
    | none =>
      rw [hf] at h
      exact Except.noConfusion h
    | some r =>
      rw [hf] at h
      obtain ⟨pl, slabs'⟩ := r
      refine ih slabs' (placed ++ [pl]) ps ?_ h
      rw [List.pairwise_append]
      refine ⟨hp, List.pairwise_singleton _ _, ?_⟩
      intro a ha b hb
      have hb' : b = pl := by simpa using hb
      rw [hb', overlaps_comm]
      exact findSpot_no_overlap item v slabs placed pl slabs' hf a ha

/-- C6: in every successful optimizer result, the boxes of any two distinct
placements do not overlap: their interiors do not intersect on all three
axes simultaneously, so touching faces or edges are allowed. -/
theorem c6_no_overlap (items : List CargoItem) (v : Vehicle) (ps : List Placement)
    (h : optimize items v = .ok ps) :
    List.Pairwise (fun p q => overlaps p.box q.box = false) ps := by
  rw [optimize] at h
  split at h
  · exact Except.noConfusion h
  · split at h
    · exact Except.noConfusion h
    · split at h
      · exact Except.noConfusion h
      · exact packLoop_pairwise v (sortBy itemLE items) [initialSlab v] [] ps
          List.Pairwise.nil h

/-- Witness for C6: a successful one-item packing of the sample input. -/
theorem c6_no_overlap_witness :
    optimize [exItemA] exVehicle = .ok [⟨3, false, ⟨0, 0, 0, 1, 1, 1⟩⟩] ∧
    List.Pairwise (fun p q => overlaps p.box q.box = false)
      [(⟨3, false, ⟨0, 0, 0, 1, 1, 1⟩⟩ : Placement)] :=
  ⟨by with_unfolding_all rfl,
   c6_no_overlap [exItemA] exVehicle _ (by with_unfolding_all rfl)⟩

end LoadBalancer
